import Mathlib

/-!
Verification of the single-page broken-link checker in `src/main.py`.

The development shallowly embeds the program: URL parsing and resolution
(the `urllib.parse` routines the program calls), the link extractor
`get_all_links`, the per-URL prober `check_link` with its dedup registry,
and the orchestrating `main` function.  Network effects (the `requests`
library) are modelled as oracles: the outcome of fetching the seed page and
a function giving the outcome of the HEAD probe for each URL.  Console and
log output, network requests and the printed report are reified as an
explicit event trace so that claims about "no network call" or "no report
printed" become statements about the trace.
-/

/-! ### Model of `urllib.parse` (Python standard library)

`src/main.py` calls `urlparse` and `urljoin` from `urllib.parse`.  The
definitions below model CPython's `Lib/urllib/parse.py`: `urlsplit`,
`urlparse` (with parameter splitting), `urlunsplit`, `urlunparse` and
`urljoin` (RFC 3986 reference resolution as CPython implements it).
Omitted details that no input in this development exercises: removal of
ASCII tab/CR/LF bytes, stripping of leading control characters, and the
`ValueError` checks for bracketed IPv6 hosts.
-/

/-- Characters allowed in a URL scheme after the leading letter
(`scheme_chars` in `urllib.parse`). -/
def schemeChar (c : Char) : Bool :=
  c.isAlpha || c.isDigit || c == '+' || c == '-' || c == '.'

/-- ASCII lower-casing of one character (schemes are ASCII). -/
def lowerChar (c : Char) : Char :=
  if 'A' ≤ c ∧ c ≤ 'Z' then Char.ofNat (c.toNat + 32) else c

/-- Split a character list at the first occurrence of `sep`
(`str.split(sep, 1)` in Python); `none` when `sep` does not occur. -/
def splitFirst (sep : Char) : List Char → Option (List Char × List Char)
  | [] => none
  | c :: cs =>
    if c == sep then some ([], cs)
    else
      match splitFirst sep cs with
      | none => none
      | some (l, r) => some (c :: l, r)

/-- `_splitnetloc`: the network-location part extends to the first
`'/'`, `'?'` or `'#'`. -/
def splitNetloc : List Char → List Char × List Char
  | [] => ([], [])
  | c :: cs =>
    if c == '/' || c == '?' || c == '#' then ([], c :: cs)
    else
      let p := splitNetloc cs
      (c :: p.1, p.2)

/-- Scheme recognition in `urlsplit`: the text before the first `':'` is a
scheme when it is non-empty, begins with a letter and consists of scheme
characters only. -/
def extractScheme (cs : List Char) : Option (List Char × List Char) :=
  match splitFirst ':' cs with
  | none => none
  | some (before, after) =>
    match before with
    | [] => none
    | c0 :: _ =>
      if c0.isAlpha && before.all schemeChar then some (before, after) else none

/-- Result of `urlsplit`. -/
structure SplitResult where
  scheme : String
  netloc : String
  path : String
  query : String
  fragment : String
deriving DecidableEq

/-- `urllib.parse.urlsplit url scheme0` with fragments allowed.  `scheme0`
is the default scheme used when `url` carries none of its own. -/
def urlsplit (scheme0 : String) (url : String) : SplitResult :=
  let cs := url.data
  let sp := extractScheme cs
  let scheme :=
    match sp with
    | some (sch, _) => String.mk (sch.map lowerChar)
    | none => scheme0
  let rest :=
    match sp with
    | some (_, aft) => aft
    | none => cs
  let nl := if rest.take 2 == ['/', '/'] then splitNetloc (rest.drop 2) else ([], rest)
  let netloc := nl.1
  let rest := nl.2
  let fsp := splitFirst '#' rest
  let fragment := match fsp with | some (_, f) => f | none => []
  let rest := match fsp with | some (r, _) => r | none => rest
  let qsp := splitFirst '?' rest
  let query := match qsp with | some (_, q) => q | none => []
  let path := match qsp with | some (p, _) => p | none => rest
  SplitResult.mk scheme (String.mk netloc) (String.mk path) (String.mk query) (String.mk fragment)

/-- Result of `urlparse`. -/
structure ParseResult where
  scheme : String
  netloc : String
  path : String
  params : String
  query : String
  fragment : String
deriving DecidableEq

/-- `_splitparams`: split the `';'`-parameters off the final path segment. -/
def splitparams (url : List Char) : List Char × List Char :=
  if url.contains '/' then
    let j := url.length - 1 - url.reverse.indexOf '/'
    match splitFirst ';' (url.drop j) with
    | none => (url, [])
    | some (a, b) => (url.take j ++ a, b)
  else
    match splitFirst ';' url with
    | none => (url, [])
    | some (a, b) => (a, b)

/-- `urllib.parse.urlparse url scheme0`: `urlsplit` plus parameter
splitting. -/
def urlparse (scheme0 : String) (url : String) : ParseResult :=
  let s := urlsplit scheme0 url
  let pp := splitparams s.path.data
  ParseResult.mk s.scheme s.netloc (String.mk pp.1) (String.mk pp.2) s.query s.fragment

/-- `urllib.parse.urlunsplit`. -/
def urlunsplit (scheme netloc path query fragment : String) : String :=
  let url := path
  let url :=
    if netloc != "" || url.data.take 2 == ['/', '/'] then
      let url := if url != "" && !(url.data.take 1 == ['/']) then "/" ++ url else url
      "//" ++ netloc ++ url
    else url
  let url := if scheme != "" then scheme ++ ":" ++ url else url
  let url := if query != "" then url ++ "?" ++ query else url
  if fragment != "" then url ++ "#" ++ fragment else url

/-- `urllib.parse.urlunparse`. -/
def urlunparse (p : ParseResult) : String :=
  let path := if p.params != "" then p.path ++ ";" ++ p.params else p.path
  urlunsplit p.scheme p.netloc path p.query p.fragment

/-- `uses_relative` from `urllib.parse`. -/
def usesRelative : List String :=
  ["", "ftp", "http", "gopher", "nntp", "imap", "wais", "file", "https", "shttp",
   "mms", "prospero", "rtsp", "rtspu", "sftp", "svn", "svn+ssh", "ws", "wss"]

/-- `uses_netloc` from `urllib.parse`. -/
def usesNetloc : List String :=
  ["", "ftp", "http", "gopher", "nntp", "telnet", "imap", "wais", "file", "mms",
   "https", "shttp", "snews", "prospero", "rtsp", "rtspu", "rsync", "svn",
   "svn+ssh", "sftp", "nfs", "git", "git+ssh", "ws", "wss", "itms-services"]

/-- `str.split(sep)` on every occurrence; the split of the empty string is
one empty piece. -/
def splitAll (sep : Char) : List Char → List (List Char)
  | [] => [[]]
  | c :: cs =>
    if c == sep then [] :: splitAll sep cs
    else
      match splitAll sep cs with
      | [] => [[c]]
      | h :: t => (c :: h) :: t

/-- `segments[1:-1] = filter(None, segments[1:-1])` in `urljoin`: drop
empty segments strictly between the first and the last. -/
def filterMiddle (l : List (List Char)) : List (List Char) :=
  match l with
  | [] => []
  | [x] => [x]
  | x :: rest => x :: ((rest.dropLast.filter (fun s => !s.isEmpty)) ++ [rest.getLastD []])

/-- The dot-segment resolution loop of `urljoin` (`resolved_path`), with
`pop` on an empty accumulator ignored. -/
def resolveSegs (acc : List (List Char)) : List (List Char) → List (List Char)
  | [] => acc
  | seg :: rest =>
    if seg == ['.', '.'] then resolveSegs acc.dropLast rest
    else if seg == ['.'] then resolveSegs acc rest
    else resolveSegs (acc ++ [seg]) rest

/-- `urllib.parse.urljoin`: resolve `url` against `base`. -/
def urljoin (base url : String) : String :=
  if base == "" then url
  else if url == "" then base
  else
    let b := urlparse "" base
    let r := urlparse b.scheme url
    if r.scheme != b.scheme || !(usesRelative.contains r.scheme) then url
    else if usesNetloc.contains r.scheme && r.netloc != "" then
      urlunparse (ParseResult.mk r.scheme r.netloc r.path r.params r.query r.fragment)
    else
      let netloc := if usesNetloc.contains r.scheme then b.netloc else r.netloc
      if r.path == "" && r.params == "" then
        let query := if r.query == "" then b.query else r.query
        urlunparse (ParseResult.mk r.scheme netloc b.path b.params query r.fragment)
      else
        let baseParts0 := splitAll '/' b.path.data
        let baseParts :=
          if baseParts0.getLastD [] != [] then baseParts0.dropLast else baseParts0
        let segments :=
          if r.path.data.take 1 == ['/'] then splitAll '/' r.path.data
          else filterMiddle (baseParts ++ splitAll '/' r.path.data)
        let resolved0 := resolveSegs [] segments
        let resolved :=
          if segments.getLastD [] == ['.'] || segments.getLastD [] == ['.', '.'] then
            resolved0 ++ [[]]
          else resolved0
        let joined := List.intercalate ['/'] resolved
        let path := if joined == ([] : List Char) then "/" else String.mk joined
        urlunparse (ParseResult.mk r.scheme netloc path r.params r.query r.fragment)

/-! ### Model of `src/main.py` -/

namespace LinkChecker

/-- `str.startswith` from Python. -/
def startswith (s pfx : String) : Bool := List.isPrefixOf pfx.data s.data

/-- `link[:75]` truncation used in the progress line. -/
def truncate75 (s : String) : String := String.mk (s.data.take 75)

/-- `is_valid_url` (src/main.py lines 20-23): the URL must have a scheme
and a network location. -/
def is_valid_url (url : String) : Bool :=
  let parsed := urlparse "" url
  (parsed.scheme != "") && (parsed.netloc != "")

/-- The per-candidate normalization step of the extraction loop
(src/main.py lines 44-57): skip page anchors, mail and script links, make
the reference absolute with `urljoin`, and keep it only when
`is_valid_url` accepts the result. -/
def normalize (base_url href : String) : Option String :=
  if startswith href "#" || startswith href "mailto:" || startswith href "javascript:" then
    none
  else
    let absolute_url := urljoin base_url href
    if is_valid_url absolute_url then some absolute_url else none

/-- Outcome of fetching the seed page (the `requests.get` +
`raise_for_status` calls in `get_all_links`): either the list of `href`
attribute values of the page's anchor tags in document order (the
BeautifulSoup traversal is treated as a capability), or a
`RequestException` carrying a message — raised on connection failure,
timeout, or a non-2xx status. -/
inductive FetchOutcome where
  | success (hrefs : List String)
  | failure (err : String)
deriving DecidableEq

/-- Observable actions of a scan: log lines, the per-link progress line,
the two kinds of network request, and the printed final report. -/
inductive Event where
  | logInfo (msg : String)
  | logWarning (msg : String)
  | logError (msg : String)
  | progress (i total : Nat) (url : String)
  | netFetch (url : String)
  | netProbe (url : String)
  | printReport (base_url : String) (total ok_links : Nat)
      (broken_links : List (String × String))
deriving DecidableEq

/-- Event classifiers used to state trace properties. -/
def Event.isNetworkCall : Event → Bool
  | Event.netFetch _ => true
  | Event.netProbe _ => true
  | _ => false

def Event.isProbeCall : Event → Bool
  | Event.netProbe _ => true
  | _ => false

def Event.isReportPrint : Event → Bool
  | Event.printReport _ _ _ _ => true
  | _ => false

def Event.isWarningLog : Event → Bool
  | Event.logWarning _ => true
  | _ => false

/-- The loop body of `get_all_links` (src/main.py lines 44-57) folded over
the page's hrefs, accumulating the set `links_to_check`. -/
def addLinks (base_url : String) (hrefs : List String) (links_to_check : Finset String) :
    Finset String :=
  match hrefs with
  | [] => links_to_check
  | href :: rest =>
    match normalize base_url href with
    | none => addLinks base_url rest links_to_check
    | some absolute_url => addLinks base_url rest (insert absolute_url links_to_check)

/-- `get_all_links` (src/main.py lines 25-62) together with its event
trace: it always issues the page request; on a `RequestException` it logs
the error and falls through to return the set built so far — the empty
set. -/
def get_all_links (base_url : String) (fetch : FetchOutcome) : Finset String × List Event :=
  match fetch with
  | FetchOutcome.success hrefs =>
    (addLinks base_url hrefs ∅, [Event.netFetch base_url])
  | FetchOutcome.failure err =>
    (∅, [Event.netFetch base_url,
         Event.logError ("Gagal mengambil " ++ base_url ++ ": " ++ err)])

/-- Outcome of the `requests.head` call in `check_link`: an HTTP response
with status code and reason phrase, or one of the transport-level
exceptions the source catches. -/
inductive NetOutcome where
  | response (status : Nat) (reason : String)
  | timeout
  | tooManyRedirects
  | connectionError
  | otherError (err : String)
deriving DecidableEq

/-- The `(status_code, status_message)` pair returned by `check_link`. -/
structure CheckResult where
  status_code : Option Nat
  message : String
deriving DecidableEq

/-- `check_link` (src/main.py lines 64-97), with the module-level
`processed_urls` registry passed explicitly and the probe outcome supplied
by the oracle `net`.  Returns the result pair, the updated registry, and
the network requests issued. -/
def check_link (net : String → NetOutcome) (processed_urls : Finset String) (url : String) :
    CheckResult × Finset String × List Event :=
  if url ∈ processed_urls then
    (CheckResult.mk none "Skipped (Already Checked)", processed_urls, [])
  else
    let processed2 := insert url processed_urls
    match net url with
    | NetOutcome.response status reason =>
      if status ≥ 400 then
        (CheckResult.mk (some status) ("Client/Server Error (" ++ reason ++ ")"),
         processed2, [Event.netProbe url])
      else
        (CheckResult.mk (some status) "OK", processed2, [Event.netProbe url])
    | NetOutcome.timeout =>
      (CheckResult.mk none "Timeout", processed2, [Event.netProbe url])
    | NetOutcome.tooManyRedirects =>
      (CheckResult.mk none "Too Many Redirects", processed2, [Event.netProbe url])
    | NetOutcome.connectionError =>
      (CheckResult.mk none "Connection Error", processed2, [Event.netProbe url])
    | NetOutcome.otherError err =>
      (CheckResult.mk none ("Error Lainnya: " ++ err), processed2, [Event.netProbe url])

/-- The value `check_link` produces for a URL not yet in the registry, as
a function of the probe outcome. -/
def checkResultOf : NetOutcome → CheckResult
  | NetOutcome.response status reason =>
    if status ≥ 400 then
      CheckResult.mk (some status) ("Client/Server Error (" ++ reason ++ ")")
    else CheckResult.mk (some status) "OK"
  | NetOutcome.timeout => CheckResult.mk none "Timeout"
  | NetOutcome.tooManyRedirects => CheckResult.mk none "Too Many Redirects"
  | NetOutcome.connectionError => CheckResult.mk none "Connection Error"
  | NetOutcome.otherError err => CheckResult.mk none ("Error Lainnya: " ++ err)

/-- The broken-list entry that `main`'s loop (src/main.py lines 137-146)
records for a freshly probed URL, as a function of the probe outcome:
`none` when the link counts as working. -/
def brokenEntry (net : String → NetOutcome) (url : String) : Option (String × String) :=
  match net url with
  | NetOutcome.response status _ =>
    if status ≥ 400 then some (url, "Status " ++ toString status) else none
  | NetOutcome.timeout => some (url, "Timeout")
  | NetOutcome.tooManyRedirects => some (url, "Too Many Redirects")
  | NetOutcome.connectionError => some (url, "Connection Error")
  | NetOutcome.otherError err => some (url, "Error Lainnya: " ++ err)

/-- The probing loop of `main` (src/main.py lines 133-146): iterate the
links with a running index, print progress, call `check_link`, and either
count the link as working or append it to `broken_links`. -/
def probeLoop (net : String → NetOutcome) : List String → Nat → Nat → Finset String →
    List (String × String) → Nat → List Event × Finset String × List (String × String) × Nat
  | [], _i, _total, processed, broken, ok => ([], processed, broken, ok)
  | link :: rest, i, total, processed, broken, ok =>
    let c := check_link net processed link
    let res := c.1
    let step : List Event × List (String × String) × Nat :=
      match res.status_code with
      | none =>
        ([Event.logWarning ("RUSAK: " ++ link ++ " (Alasan: " ++ res.message ++ ")")],
         broken ++ [(link, res.message)], ok)
      | some status =>
        if status ≥ 400 then
          ([Event.logWarning ("RUSAK: " ++ link ++ " (Status " ++ toString status ++ ")")],
           broken ++ [(link, "Status " ++ toString status)], ok)
        else ([], broken, ok + 1)
    let r := probeLoop net rest (i + 1) total c.2.1 step.2.1 step.2.2
    (Event.progress (i + 1) total (truncate75 link) :: c.2.2 ++ step.1 ++ r.1,
     r.2.1, r.2.2.1, r.2.2.2)

/-- Result of one run of `main`. -/
inductive MainResult where
  | invalidUrl
  | noLinks
  | completed (base_url : String) (total ok_links : Nat)
      (broken_links : List (String × String))
deriving DecidableEq

/-- `main` (src/main.py lines 99-162), with the command-line URL as
argument, the network modelled by the two oracles, and Python's set
iteration order supplied by `iter`.  The module-level `processed_urls`
registry starts empty for the process run. -/
def main (fetch : FetchOutcome) (net : String → NetOutcome)
    (iter : Finset String → List String) (base_url : String) : List Event × MainResult :=
  if is_valid_url base_url then
    let fetched := get_all_links base_url fetch
    let links_to_check := fetched.1
    let events0 := Event.logInfo ("Memulai pemindaian di: " ++ base_url) :: fetched.2
    if links_to_check = ∅ then
      (events0 ++ [Event.logWarning "Tidak ada tautan eksternal yang ditemukan di halaman tersebut."],
       MainResult.noLinks)
    else
      let links := iter links_to_check
      let r := probeLoop net links 0 links_to_check.card ∅ [] 0
      (events0 ++ Event.logInfo "Menemukan tautan unik. Memulai pemeriksaan..." ::
         (r.1 ++ [Event.printReport base_url links_to_check.card r.2.2.2 r.2.2.1]),
       MainResult.completed base_url links_to_check.card r.2.2.2 r.2.2.1)
  else
    ([Event.logError ("URL tidak valid: " ++ base_url)], MainResult.invalidUrl)

/-- A probe oracle under which every request times out. -/
def netTimeout : String → NetOutcome := fun _ => NetOutcome.timeout

/-- A probe oracle answering status 399 everywhere. -/
def net399 : String → NetOutcome := fun _ => NetOutcome.response 399 "r"

/-- A probe oracle answering status 400 everywhere. -/
def net400 : String → NetOutcome := fun _ => NetOutcome.response 400 "r"

/-- A concrete set-iteration order: lexicographic. -/
def sortIter (s : Finset String) : List String := s.sort (· ≤ ·)

end LinkChecker

example : urljoin "https://site.test" "/about" = "https://site.test/about" := by decide
example : urljoin "https://site.test" "https://other.test/ok" = "https://other.test/ok" := by decide
example : urljoin "https://site.test" "tel:+123" = "tel:+123" := by decide
example : urljoin "https://site.test" "ftp://files.test/pub" = "ftp://files.test/pub" := by decide
example : urljoin "https://site.test/a/b" "../x" = "https://site.test/x" := by decide
example : urljoin "https://site.test/a/b" "c" = "https://site.test/a/c" := by decide
example : urljoin "https://site.test" "//cdn.test/x" = "https://cdn.test/x" := by decide
example : (urlparse "" "not-a-url").scheme = "" := by decide
example : (urlparse "" "https://site.test/about").netloc = "site.test" := by decide

/-! ### Helper lemmas -/

namespace LinkChecker

lemma str_data_append (s t : String) : (s ++ t).data = s.data ++ t.data := by
  cases s
  cases t
  rfl

lemma take_length_append {α : Type} (l₁ l₂ : List α) : (l₁ ++ l₂).take l₁.length = l₁ := by
  induction l₁ with
  | nil => simp
  | cons a t ih => simp [ih]

lemma status_msg_ne_skip (t : String) :
    ("Status " ++ t) ≠ "Skipped (Already Checked)" := by
  intro h
  have h2 : ("Status " ++ t).data = ("Skipped (Already Checked)" : String).data := by rw [h]
  rw [str_data_append] at h2
  have h3 := congrArg (List.take ("Status " : String).data.length) h2
  rw [take_length_append] at h3
  exact absurd h3 (by decide)

lemma err_msg_ne_skip (t : String) :
    ("Error Lainnya: " ++ t) ≠ "Skipped (Already Checked)" := by
  intro h
  have h2 : ("Error Lainnya: " ++ t).data = ("Skipped (Already Checked)" : String).data := by
    rw [h]
  rw [str_data_append] at h2
  have h3 := congrArg (List.take ("Error Lainnya: " : String).data.length) h2
  rw [take_length_append] at h3
  exact absurd h3 (by decide)

/-- `check_link` on a URL not yet in the registry: the registry gains the
URL, exactly one probe request is issued, and the result is determined by
the probe outcome. -/
lemma check_link_fresh (net : String → NetOutcome) (processed : Finset String) (url : String)
    (h : url ∉ processed) :
    check_link net processed url =
      (checkResultOf (net url), insert url processed, [Event.netProbe url]) := by
  cases hnet : net url
  case response status reason =>
    rcases Nat.lt_or_ge status 400 with h4 | h4
    · simp [check_link, checkResultOf, h, hnet, Nat.not_le.mpr h4]
    · simp [check_link, checkResultOf, h, hnet, h4]
  all_goals simp [check_link, checkResultOf, h, hnet]

/-- Characterization of the probing loop on a duplicate-free list of URLs
none of which is registered yet: the broken list is extended by exactly the
entries `brokenEntry` dictates, the working-link counter counts the rest,
and the probe requests issued are exactly one per URL, in order. -/
lemma probeLoop_spec (net : String → NetOutcome) (links : List String) :
    ∀ (i total : Nat) (processed : Finset String) (broken : List (String × String)) (ok : Nat),
      links.Nodup → (∀ l ∈ links, l ∉ processed) →
      (probeLoop net links i total processed broken ok).2.2.1 =
          broken ++ links.filterMap (brokenEntry net) ∧
      (probeLoop net links i total processed broken ok).2.2.2 =
          ok + links.countP (fun l => (brokenEntry net l).isNone) ∧
      (probeLoop net links i total processed broken ok).1.filter Event.isProbeCall =
          links.map Event.netProbe := by
  induction links with
  | nil =>
    intro i total processed broken ok _ _
    refine ⟨by simp [probeLoop], by simp [probeLoop], by simp [probeLoop]⟩
  | cons link rest ih =>
    intro i total processed broken ok hnd hfresh
    have hlink : link ∉ processed := hfresh link (List.mem_cons_self link rest)
    have hlr : link ∉ rest := (List.nodup_cons.mp hnd).1
    have hnd2 : rest.Nodup := (List.nodup_cons.mp hnd).2
    have hfresh2 : ∀ l ∈ rest, l ∉ insert link processed := by
      intro l hl
      rw [Finset.mem_insert]
      push_neg
      refine ⟨?_, hfresh l (List.mem_cons_of_mem link hl)⟩
      intro he
      exact hlr (he ▸ hl)
    cases hnet : net link with
    | response status reason =>
      rcases Nat.lt_or_ge status 400 with h4 | h4
      · obtain ⟨ihb, ihk, ihc⟩ := ih (i + 1) total (insert link processed) broken (ok + 1)
          hnd2 hfresh2
        refine ⟨?_, ?_, ?_⟩ <;>
          simp [probeLoop, check_link_fresh net processed link hlink, hnet, checkResultOf,
            Nat.not_le.mpr h4, ihb, ihk, ihc, brokenEntry, List.filterMap_cons,
            List.countP_cons, Event.isProbeCall, List.filter_cons, Nat.add_assoc, Nat.add_comm 1]
      · obtain ⟨ihb, ihk, ihc⟩ := ih (i + 1) total (insert link processed)
          (broken ++ [(link, "Status " ++ toString status)]) ok hnd2 hfresh2
        refine ⟨?_, ?_, ?_⟩ <;>
          simp [probeLoop, check_link_fresh net processed link hlink, hnet, checkResultOf,
            h4, ihb, ihk, ihc, brokenEntry, List.filterMap_cons, List.countP_cons,
          Event.isProbeCall, List.filter_cons]
    | timeout =>
      obtain ⟨ihb, ihk, ihc⟩ := ih (i + 1) total (insert link processed)
        (broken ++ [(link, "Timeout")]) ok hnd2 hfresh2
      refine ⟨?_, ?_, ?_⟩ <;>
        simp [probeLoop, check_link_fresh net processed link hlink, hnet, checkResultOf,
          ihb, ihk, ihc, brokenEntry, List.filterMap_cons, List.countP_cons,
          Event.isProbeCall, List.filter_cons]
    | tooManyRedirects =>
      obtain ⟨ihb, ihk, ihc⟩ := ih (i + 1) total (insert link processed)
        (broken ++ [(link, "Too Many Redirects")]) ok hnd2 hfresh2
      refine ⟨?_, ?_, ?_⟩ <;>
        simp [probeLoop, check_link_fresh net processed link hlink, hnet, checkResultOf,
          ihb, ihk, ihc, brokenEntry, List.filterMap_cons, List.countP_cons,
          Event.isProbeCall, List.filter_cons]
    | connectionError =>
      obtain ⟨ihb, ihk, ihc⟩ := ih (i + 1) total (insert link processed)
        (broken ++ [(link, "Connection Error")]) ok hnd2 hfresh2
      refine ⟨?_, ?_, ?_⟩ <;>
        simp [probeLoop, check_link_fresh net processed link hlink, hnet, checkResultOf,
          ihb, ihk, ihc, brokenEntry, List.filterMap_cons, List.countP_cons,
          Event.isProbeCall, List.filter_cons]
    | otherError err =>
      obtain ⟨ihb, ihk, ihc⟩ := ih (i + 1) total (insert link processed)
        (broken ++ [(link, "Error Lainnya: " ++ err)]) ok hnd2 hfresh2
      refine ⟨?_, ?_, ?_⟩ <;>
        simp [probeLoop, check_link_fresh net processed link hlink, hnet, checkResultOf,
          ihb, ihk, ihc, brokenEntry, List.filterMap_cons, List.countP_cons,
          Event.isProbeCall, List.filter_cons]

lemma filterMap_length_add_countP {α β : Type} (f : α → Option β) (l : List α) :
    (l.filterMap f).length + l.countP (fun a => (f a).isNone) = l.length := by
  induction l with
  | nil => simp
  | cons a t ih => cases h : f a <;> simp [List.filterMap_cons, h, List.countP_cons] <;> omega

/-- When extraction yields the empty set, `main` stops on the warning path
after the fetch, with no probing and no report. -/
lemma main_noLinks (fetch : FetchOutcome) (net : String → NetOutcome)
    (iter : Finset String → List String) (base : String)
    (hv : is_valid_url base = true) (h0 : (get_all_links base fetch).1 = ∅) :
    main fetch net iter base =
      (Event.logInfo ("Memulai pemindaian di: " ++ base) :: (get_all_links base fetch).2 ++
         [Event.logWarning "Tidak ada tautan eksternal yang ditemukan di halaman tersebut."],
       MainResult.noLinks) := by
  simp [main, hv, h0]

end LinkChecker

/-! ### Claim theorems -/

namespace LinkChecker

/-- Claim C1: for the base URL `https://site.test` and a page whose anchor
hrefs are `/about`, `#top`, `mailto:a@b.com` and `https://other.test/ok`,
link extraction returns exactly the two-element set
`{https://site.test/about, https://other.test/ok}`: the anchor and mailto
references are excluded and relative references are resolved against the
base. -/
theorem c1_link_extraction_scenario :
    (get_all_links "https://site.test"
      (FetchOutcome.success ["/about", "#top", "mailto:a@b.com", "https://other.test/ok"])).1 =
      {"https://site.test/about", "https://other.test/ok"} := by
  decide

/-- Claim C2: for every probe that obtains an HTTP response, the
classification depends only on the 400 boundary — status `< 400` yields
`(statusCode, OK)` and status `≥ 400` yields the client/server-error
message with the reason phrase; in particular 399 is classified OK and 400
is classified as an error. -/
theorem c2_classification_boundary (net : String → NetOutcome) (processed : Finset String)
    (url : String) (status : Nat) (reason : String)
    (h1 : url ∉ processed) (h2 : net url = NetOutcome.response status reason) :
    (check_link net processed url).1 =
      (if status ≥ 400 then
        CheckResult.mk (some status) ("Client/Server Error (" ++ reason ++ ")")
      else CheckResult.mk (some status) "OK") ∧
    (check_link net399 ∅ "https://site.test").1 = CheckResult.mk (some 399) "OK" ∧
    (check_link net400 ∅ "https://site.test").1 =
      CheckResult.mk (some 400) "Client/Server Error (r)" := by
  refine ⟨?_, by decide, by decide⟩
  rw [check_link_fresh net processed url h1, h2]
  rfl

/-- Witness for claim C2 at the boundary input: a fresh URL whose probe
answers status 399 is classified OK. -/
theorem c2_classification_boundary_witness :
    (check_link net399 ∅ "https://site.test").1 =
      (if 399 ≥ 400 then
        CheckResult.mk (some 399) ("Client/Server Error (" ++ "r" ++ ")")
      else CheckResult.mk (some 399) "OK") :=
  (c2_classification_boundary net399 ∅ "https://site.test" 399 "r"
    (by decide) rfl).1

/-- Claim C3, counterexample: the candidate `tel:+123` starts with none of
the prefixes `#`, `mailto:`, `javascript:`, yet normalization rejects it
(its resolution has no host), so rejection is not characterized by the
three prefixes alone. -/
theorem c3_reject_counterexample :
    normalize "https://site.test" "tel:+123" = none ∧
    startswith "tel:+123" "#" = false ∧
    startswith "tel:+123" "mailto:" = false ∧
    startswith "tel:+123" "javascript:" = false := by
  decide

/-- Claim C3 as amended: normalization rejects a candidate if and only if
it starts with `#`, `mailto:` or `javascript:`, or the candidate resolved
against the base fails the scheme/host validity check. -/
theorem c3_reject_amended (base cand : String) :
    normalize base cand = none ↔
      (startswith cand "#" || startswith cand "mailto:" ||
        startswith cand "javascript:") = true ∨
      is_valid_url (urljoin base cand) = false := by
  unfold normalize
  by_cases h1 : (startswith cand "#" || startswith cand "mailto:" ||
      startswith cand "javascript:") = true
  · simp [h1]
  · rw [if_neg h1]
    by_cases h2 : is_valid_url (urljoin base cand) = true
    · simp [h1, h2]
    · rw [Bool.not_eq_true] at h2
      simp [h2]

/-- Witness for claim C3 as amended, instantiated at the counterexample
candidate. -/
theorem c3_reject_amended_witness :
    normalize "https://site.test" "tel:+123" = none ↔
      (startswith "tel:+123" "#" || startswith "tel:+123" "mailto:" ||
        startswith "tel:+123" "javascript:") = true ∨
      is_valid_url (urljoin "https://site.test" "tel:+123") = false :=
  c3_reject_amended "https://site.test" "tel:+123"

/-- Claim C4, counterexample: with a successfully fetched page whose only
href is the anchor `#top`, extraction yields zero links and the scan ends
on the warning path — no probe is issued and no final report is printed,
against the claim that the report is still produced. -/
theorem c4_zero_links_counterexample :
    (main (FetchOutcome.success ["#top"]) netTimeout sortIter "https://site.test").2 =
      MainResult.noLinks ∧
    (main (FetchOutcome.success ["#top"]) netTimeout sortIter
      "https://site.test").1.countP Event.isReportPrint = 0 ∧
    (main (FetchOutcome.success ["#top"]) netTimeout sortIter
      "https://site.test").1.countP Event.isProbeCall = 0 ∧
    (main (FetchOutcome.success ["#top"]) netTimeout sortIter
      "https://site.test").1.countP Event.isWarningLog = 1 := by
  decide

/-- Claim C4 as amended: when the seed page is fetched successfully but
extraction yields zero links, the scan emits a warning, performs no
probing, and returns early without printing the final report. -/
theorem c4_zero_links_amended (net : String → NetOutcome) (iter : Finset String → List String)
    (base : String) (hrefs : List String)
    (hv : is_valid_url base = true) (h0 : addLinks base hrefs ∅ = ∅) :
    (main (FetchOutcome.success hrefs) net iter base).2 = MainResult.noLinks ∧
    (main (FetchOutcome.success hrefs) net iter base).1.countP Event.isProbeCall = 0 ∧
    (main (FetchOutcome.success hrefs) net iter base).1.countP Event.isReportPrint = 0 ∧
    Event.logWarning "Tidak ada tautan eksternal yang ditemukan di halaman tersebut." ∈
      (main (FetchOutcome.success hrefs) net iter base).1 := by
  have h0s : (get_all_links base (FetchOutcome.success hrefs)).1 = ∅ := by
    simp [get_all_links, h0]
  have hm := main_noLinks (FetchOutcome.success hrefs) net iter base hv h0s
  rw [hm]
  refine ⟨rfl, ?_, ?_, ?_⟩ <;>
    simp [get_all_links, List.countP_cons, List.countP_append,
      Event.isProbeCall, Event.isReportPrint]

/-- Witness for claim C4 as amended, at a concrete page whose only href is
an anchor. -/
theorem c4_zero_links_witness :
    (main (FetchOutcome.success ["#top"]) net399 sortIter "https://site.test").2 =
      MainResult.noLinks :=
  (c4_zero_links_amended net399 sortIter "https://site.test" ["#top"]
    (by decide) (by decide)).1

/-- Claim C5: the code accepts URLs whose scheme is outside the http/https
family.  A page href `ftp://files.test/pub` passes `is_valid_url` and is
added to the checking set although its scheme is `ftp`, contradicting the
claimed invariant (and the docstring of `is_valid_url`). -/
theorem c5_scheme_family_bug :
    "ftp://files.test/pub" ∈ (get_all_links "https://site.test"
      (FetchOutcome.success ["ftp://files.test/pub"])).1 ∧
    (urlparse "" "ftp://files.test/pub").scheme = "ftp" ∧
    (urlparse "" "ftp://files.test/pub").scheme ≠ "http" ∧
    (urlparse "" "ftp://files.test/pub").scheme ≠ "https" ∧
    is_valid_url "ftp://files.test/pub" = true := by
  decide

/-- Claim C6: probing a URL already in the dedup registry returns
`(none, Skipped)` with no network request and an unchanged registry; a
never-marked URL is marked first (the registry grows monotonically), and a
second probe of the same URL is always a skip, so each URL is
network-probed at most once per scan. -/
theorem c6_dedup_registry (net : String → NetOutcome) (processed : Finset String)
    (url : String) :
    (url ∈ processed →
      check_link net processed url =
        (CheckResult.mk none "Skipped (Already Checked)", processed, [])) ∧
    (url ∉ processed →
      (check_link net processed url).2.1 = insert url processed ∧
      (check_link net processed url).2.2 = [Event.netProbe url]) ∧
    processed ⊆ (check_link net processed url).2.1 ∧
    check_link net (check_link net processed url).2.1 url =
      (CheckResult.mk none "Skipped (Already Checked)",
        (check_link net processed url).2.1, []) := by
  by_cases hmem : url ∈ processed
  · have hskip : check_link net processed url =
        (CheckResult.mk none "Skipped (Already Checked)", processed, []) := by
      simp [check_link, hmem]
    refine ⟨fun _ => hskip, fun hn => absurd hmem hn, ?_, ?_⟩
    · rw [hskip]
    · rw [hskip]
      simp [check_link, hmem]
  · have hfr := check_link_fresh net processed url hmem
    refine ⟨fun hmem2 => absurd hmem2 hmem, fun _ => ?_, ?_, ?_⟩
    · rw [hfr]
      exact ⟨rfl, rfl⟩
    · rw [hfr]
      exact Finset.subset_insert url processed
    · rw [hfr]
      simp [check_link, Finset.mem_insert_self]

/-- Witness for claim C6: probing an already-registered URL is a skip with
no network request. -/
theorem c6_dedup_registry_witness :
    check_link netTimeout {"https://a.test"} "https://a.test" =
      (CheckResult.mk none "Skipped (Already Checked)", {"https://a.test"}, []) :=
  (c6_dedup_registry netTimeout {"https://a.test"} "https://a.test").1 (by decide)

/-- Claim C7: in the probing loop over the (duplicate-free) extracted
links, every failure outcome is a returned value recorded in the broken
list exactly as `brokenEntry` dictates, each link is probed exactly once
(no retries), the loop completes with every link accounted as either
working or broken, and under `main` the broken list lands in the final
report. -/
theorem c7_probe_failures (net : String → NetOutcome) (links : List String)
    (hnd : links.Nodup) :
    (probeLoop net links 0 links.length ∅ [] 0).2.2.1 = links.filterMap (brokenEntry net) ∧
    (probeLoop net links 0 links.length ∅ [] 0).1.filter Event.isProbeCall =
        links.map Event.netProbe ∧
    (∀ l ∈ links,
      (probeLoop net links 0 links.length ∅ [] 0).1.count (Event.netProbe l) = 1) ∧
    (probeLoop net links 0 links.length ∅ [] 0).2.2.2 +
        ((probeLoop net links 0 links.length ∅ [] 0).2.2.1).length = links.length ∧
    ∀ (fetch : FetchOutcome) (iter : Finset String → List String) (base : String),
      is_valid_url base = true → (get_all_links base fetch).1 ≠ ∅ →
      iter (get_all_links base fetch).1 = links →
      (main fetch net iter base).2 =
        MainResult.completed base (get_all_links base fetch).1.card
          (links.countP fun l => (brokenEntry net l).isNone)
          (links.filterMap (brokenEntry net)) := by
  obtain ⟨hb, hk, hf⟩ := probeLoop_spec net links 0 links.length ∅ [] 0 hnd (by simp)
  refine ⟨by simpa using hb, hf, ?_, ?_, ?_⟩
  · intro l hl
    calc (probeLoop net links 0 links.length ∅ [] 0).1.count (Event.netProbe l)
        = ((probeLoop net links 0 links.length ∅ [] 0).1.filter
            Event.isProbeCall).count (Event.netProbe l) :=
          (List.count_filter (by simp [Event.isProbeCall])).symm
      _ = (links.map Event.netProbe).count (Event.netProbe l) := by rw [hf]
      _ = links.count l := List.count_map_of_injective links Event.netProbe
            (fun a b hab => Event.netProbe.inj hab) l
      _ = 1 := List.count_eq_one_of_mem hnd hl
  · rw [hb, hk]
    have := filterMap_length_add_countP (brokenEntry net) links
    simp only [List.nil_append]
    omega
  · intro fetch iter base hv hne hiter
    obtain ⟨hb2, hk2, _⟩ := probeLoop_spec net links 0 (get_all_links base fetch).1.card
      ∅ [] 0 hnd (by simp)
    simp only [main, hv, if_true, hne, if_neg hne, hiter, hb2, hk2]
    simp

/-- Witness for claim C7: one fresh link whose probe times out ends in the
broken list with reason Timeout. -/
theorem c7_probe_failures_witness :
    (probeLoop netTimeout ["https://a.test"] 0 1 ∅ [] 0).2.2.1 =
      [("https://a.test", "Timeout")] :=
  ((c7_probe_failures netTimeout ["https://a.test"] (by decide)).1).trans (by decide)

/-- Claim C8: in the scan's probing loop (distinct links, empty initial
registry) every link is actually network-probed — no probe result is a
skip — and no entry of the broken list carries the skip message, so a
skipped URL is never counted among the broken links. -/
theorem c8_skipped_not_broken (net : String → NetOutcome) (links : List String)
    (hnd : links.Nodup) :
    (probeLoop net links 0 links.length ∅ [] 0).1.filter Event.isProbeCall =
        links.map Event.netProbe ∧
    ∀ p ∈ (probeLoop net links 0 links.length ∅ [] 0).2.2.1,
      p.2 ≠ "Skipped (Already Checked)" := by
  obtain ⟨hb, _, hf⟩ := probeLoop_spec net links 0 links.length ∅ [] 0 hnd (by simp)
  refine ⟨hf, ?_⟩
  intro p hp
  rw [hb, List.nil_append] at hp
  obtain ⟨a, _, ha⟩ := List.mem_filterMap.mp hp
  cases hnet : net a with
  | response status reason =>
    simp only [brokenEntry, hnet] at ha
    rcases Nat.lt_or_ge status 400 with h4 | h4
    · rw [if_neg (Nat.not_le.mpr h4)] at ha
      exact absurd ha (by simp)
    · rw [if_pos h4] at ha
      rw [← Option.some.inj ha]
      exact status_msg_ne_skip (toString status)
  | timeout =>
    simp only [brokenEntry, hnet, Option.some.injEq] at ha
    rw [← ha]
    show ("Timeout" : String) ≠ "Skipped (Already Checked)"
    decide
  | tooManyRedirects =>
    simp only [brokenEntry, hnet, Option.some.injEq] at ha
    rw [← ha]
    show ("Too Many Redirects" : String) ≠ "Skipped (Already Checked)"
    decide
  | connectionError =>
    simp only [brokenEntry, hnet, Option.some.injEq] at ha
    rw [← ha]
    show ("Connection Error" : String) ≠ "Skipped (Already Checked)"
    decide
  | otherError err =>
    simp only [brokenEntry, hnet, Option.some.injEq] at ha
    rw [← ha]
    exact err_msg_ne_skip err

/-- Witness for claim C8: the broken entry produced by a timed-out probe
does not carry the skip message. -/
theorem c8_skipped_not_broken_witness :
    ("https://a.test", "Timeout").2 ≠ "Skipped (Already Checked)" :=
  (c8_skipped_not_broken netTimeout ["https://a.test"] (by decide)).2
    ("https://a.test", "Timeout") (by decide)

/-- Claim C9: for every seed URL failing the validity check, the scan
terminates with the invalid-input error before any network activity: the
whole run is a single error log and zero network calls. -/
theorem c9_invalid_seed (fetch : FetchOutcome) (net : String → NetOutcome)
    (iter : Finset String → List String) (base : String)
    (h : is_valid_url base = false) :
    main fetch net iter base =
      ([Event.logError ("URL tidak valid: " ++ base)], MainResult.invalidUrl) ∧
    (main fetch net iter base).1.countP Event.isNetworkCall = 0 := by
  have hm : main fetch net iter base =
      ([Event.logError ("URL tidak valid: " ++ base)], MainResult.invalidUrl) := by
    simp [main, h]
  refine ⟨hm, ?_⟩
  rw [hm]
  simp [Event.isNetworkCall]

/-- Witness for claim C9 at the seed `not-a-url`: zero network calls. -/
theorem c9_invalid_seed_witness :
    (main (FetchOutcome.success []) netTimeout sortIter "not-a-url").1.countP
        Event.isNetworkCall = 0 :=
  (c9_invalid_seed (FetchOutcome.success []) netTimeout sortIter "not-a-url" (by decide)).2

/-- Claim C10: a failed seed fetch makes extraction return the empty set —
the same value as a successful fetch of a page with no extractable links —
and in both situations `main` ends via the no-links warning path with the
same outcome, no probing and no printed report. -/
theorem c10_fetch_failure_indistinguishable (net : String → NetOutcome)
    (iter : Finset String → List String) (base err : String) (hrefs : List String)
    (hv : is_valid_url base = true) (h0 : addLinks base hrefs ∅ = ∅) :
    (get_all_links base (FetchOutcome.failure err)).1 = ∅ ∧
    (get_all_links base (FetchOutcome.failure err)).1 =
        (get_all_links base (FetchOutcome.success hrefs)).1 ∧
    (main (FetchOutcome.failure err) net iter base).2 = MainResult.noLinks ∧
    (main (FetchOutcome.success hrefs) net iter base).2 = MainResult.noLinks ∧
    (main (FetchOutcome.failure err) net iter base).2 =
        (main (FetchOutcome.success hrefs) net iter base).2 ∧
    (main (FetchOutcome.failure err) net iter base).1.countP Event.isProbeCall = 0 ∧
    (main (FetchOutcome.failure err) net iter base).1.countP Event.isReportPrint = 0 ∧
    (main (FetchOutcome.success hrefs) net iter base).1.countP Event.isProbeCall = 0 ∧
    (main (FetchOutcome.success hrefs) net iter base).1.countP Event.isReportPrint = 0 := by
  have h0s : (get_all_links base (FetchOutcome.success hrefs)).1 = ∅ := by
    simp [get_all_links, h0]
  have h0f : (get_all_links base (FetchOutcome.failure err)).1 = ∅ := by
    simp [get_all_links]
  have hmf := main_noLinks (FetchOutcome.failure err) net iter base hv h0f
  have hms := main_noLinks (FetchOutcome.success hrefs) net iter base hv h0s
  rw [hmf, hms, h0f, h0s]
  refine ⟨rfl, rfl, rfl, rfl, rfl, ?_, ?_, ?_, ?_⟩ <;>
    simp [get_all_links, List.countP_cons, List.countP_append,
      Event.isProbeCall, Event.isReportPrint]

/-- Witness for claim C10 at a concrete failing fetch. -/
theorem c10_fetch_failure_indistinguishable_witness :
    (main (FetchOutcome.failure "connection refused") netTimeout sortIter
      "https://site.test").2 = MainResult.noLinks :=
  (c10_fetch_failure_indistinguishable netTimeout sortIter "https://site.test"
    "connection refused" [] (by decide) (by decide)).2.2.1

end LinkChecker
